import Mathlib

/-!
Verification of the qwen-proxy-python core: a shallow embedding of the
error classifiers, the multi-account dispatcher (`src/qwen/api.py`), the
authentication manager's token/counter/store logic and the device-flow
polling loop (`src/qwen/auth.py`), with theorems settling the behavioural
claims about sticky account selection, failover bounds, auth-error
retries, streaming, polling terminality, token validity, request-count
rollover and account removal.
-/

namespace QwenProxy

/-! ## String helpers

Python classifies errors by substring tests on `str(error).lower()`.
We model strings by Lean `String`, substring search on the underlying
character lists, and ASCII lowercasing (all keywords in the source are
ASCII). -/

/-- Boolean test that `pat` is a prefix of the second list. -/
def listPrefixOf : List Char → List Char → Bool
  | [], _ => true
  | _ :: _, [] => false
  | a :: as, b :: bs => a == b && listPrefixOf as bs

/-- Boolean test that `pat` occurs contiguously inside the second list
(Python's `pat in s`). -/
def listInfixOf (pat : List Char) : List Char → Bool
  | [] => listPrefixOf pat []
  | b :: bs => listPrefixOf pat (b :: bs) || listInfixOf pat bs

/-- Python's `sub in s` on strings. -/
def containsSub (s sub : String) : Bool := listInfixOf sub.data s.data

/-- Python's `s.lower()` restricted to ASCII (all classifier keywords in
the source are ASCII). -/
def strToLower (s : String) : String := String.mk (s.data.map Char.toLower)

/-! ## Error classification (`src/qwen/api.py`, `is_auth_error` /
`is_quota_exceeded_error`)

An upstream failure is seen by the dispatcher as a Python exception; the
classifiers look at `error.response.status_code` when the exception has a
response, and at `str(error).lower()` otherwise or in addition. -/

/-- An upstream failure: the optional HTTP status code of
`error.response` and the exception text `str(error)`. -/
structure UpErr where
  status : Option Nat
  text : String
deriving Repr, DecidableEq

/-- Status codes treated as auth errors (`api.py` line 44). -/
def authStatusCodes : List Nat := [400, 401, 403, 504]

/-- Keyword list from `api.py` lines 48-51. -/
def authKeywords : List String :=
  ["unauthorized", "forbidden", "invalid api key", "invalid access token",
   "token expired", "authentication", "access denied", "504", "gateway timeout"]

/-- Keyword list from `api.py` lines 70-72. -/
def quotaKeywords : List String :=
  ["insufficient_quota", "free allocated quota exceeded", "quota exceeded"]

/-- Translation of `is_auth_error` (`api.py` lines 34-53): status in
{400, 401, 403, 504}, or an auth keyword in the lowercased message. -/
def is_auth_error (e : UpErr) : Bool :=
  (match e.status with
   | some c => authStatusCodes.contains c
   | none => false)
  || authKeywords.any (fun kw => containsSub (strToLower e.text) kw)

/-- Translation of `is_quota_exceeded_error` (`api.py` lines 56-74):
status 429, or a quota keyword in the lowercased message. -/
def is_quota_exceeded_error (e : UpErr) : Bool :=
  (match e.status with
   | some c => c == 429
   | none => false)
  || quotaKeywords.any (fun kw => containsSub (strToLower e.text) kw)

/-! ## Multi-account unary dispatcher (`QwenAPI.chat_completions`,
`api.py` lines 102-226)

The loop state carries the dispatcher-local `current_account_index`
(reset to 0 at the start of every call, `api.py` line 113), the auth
manager's own persistent `current_account_index` (advanced only by
`QwenAuthManager.get_next_account`, `auth.py` lines 316-334), the number
of upstream POSTs issued so far, and `last_error`.

Upstream POST outcomes are supplied by an oracle mapping the index of the
POST (in issue order) to its outcome; token-refresh exchanges are modelled
as succeeding (a failing refresh exchange would skip the retry POST and
continue the loop exactly like a failed retry). -/

/-- Outcome of one upstream POST: HTTP 2xx, or a raised exception. -/
inductive Outcome where
  | ok
  | fail (e : UpErr)
deriving Repr, DecidableEq

/-- Observable events of a dispatch, in order of occurrence. -/
inductive Ev where
  /-- The POST at the top of a loop iteration, using the account at the
  dispatcher cursor. -/
  | attempt (acct : String)
  /-- A forced `perform_token_refresh` for `acct` (the account returned
  by `get_next_account`). -/
  | refresh (acct : String)
  /-- The retry POST after a forced refresh, using the token of `acct`. -/
  | retryAttempt (acct : String)
deriving Repr, DecidableEq

/-- Final result of a unary multi-account dispatch. -/
inductive DispatchResult where
  /-- A 2xx response was returned to the caller. -/
  | success
  /-- An HTTPException was raised from an unclassified error. -/
  | httpError (e : UpErr)
  /-- The `for` loop ran out of accounts; `api.py` line 226 raises with
  the last stored error. -/
  | exhausted (last : Option UpErr)
deriving Repr, DecidableEq

/-- Configuration of one dispatch: the snapshot of `get_account_ids()`
and which accounts have credentials in the manager's map. -/
structure LoopCfg where
  ids : List String
  hasCreds : String → Bool

/-- Mutable loop state of `chat_completions`' multi-account `for` loop. -/
structure LoopSt where
  /-- Dispatcher-local `current_account_index` (`api.py` line 113). -/
  idx : Nat
  /-- The auth manager's persistent `current_account_index`
  (`auth.py` line 59), advanced only by `get_next_account`. -/
  mgrIdx : Nat
  /-- Number of upstream POSTs issued so far (oracle position). -/
  k : Nat
  /-- Python `last_error`. -/
  lastErr : Option UpErr
deriving Repr, DecidableEq

/-- One iteration of the `for` loop of `chat_completions` (`api.py`
lines 117-223): returns the events of the iteration and either the next
loop state (`continue`) or a final result (`return` / `raise`). -/
def dispatchStep (cfg : LoopCfg) (oracle : Nat → Outcome) (s : LoopSt) :
    List Ev × (LoopSt ⊕ DispatchResult) :=
  let n := cfg.ids.length
  let acct := cfg.ids.getD s.idx ""
  if cfg.hasCreds acct = false then
    ([], Sum.inl { s with idx := (s.idx + 1) % n })
  else
    match oracle s.k with
    | Outcome.ok => ([Ev.attempt acct], Sum.inr DispatchResult.success)
    | Outcome.fail e =>
      if is_quota_exceeded_error e then
        ([Ev.attempt acct],
         Sum.inl { idx := (s.idx + 1) % n, mgrIdx := s.mgrIdx,
                   k := s.k + 1, lastErr := some e })
      else if is_auth_error e then
        let mgrAcct := cfg.ids.getD (s.mgrIdx) ""
        let mgrIdx2 := (s.mgrIdx + 1) % n
        match oracle (s.k + 1) with
        | Outcome.ok =>
          ([Ev.attempt acct, Ev.refresh mgrAcct, Ev.retryAttempt mgrAcct],
           Sum.inr DispatchResult.success)
        | Outcome.fail _ =>
          ([Ev.attempt acct, Ev.refresh mgrAcct, Ev.retryAttempt mgrAcct],
           Sum.inl { idx := s.idx, mgrIdx := mgrIdx2,
                     k := s.k + 2, lastErr := some e })
      else
        ([Ev.attempt acct], Sum.inr (DispatchResult.httpError e))

/-- The `for i in range(max_retries)` loop, `max_retries` as fuel;
falling off the loop raises "所有账户都失败了" with `last_error`. -/
def dispatchLoop (cfg : LoopCfg) (oracle : Nat → Outcome) :
    Nat → LoopSt → List Ev × DispatchResult × LoopSt
  | 0, s => ([], DispatchResult.exhausted s.lastErr, s)
  | Nat.succ fuel, s =>
    match dispatchStep cfg oracle s with
    | (evs, Sum.inr r) => (evs, r, s)
    | (evs, Sum.inl s2) =>
      let rest := dispatchLoop cfg oracle fuel s2
      (evs ++ rest.1, rest.2.1, rest.2.2)

/-- The multi-account path of `chat_completions` (`api.py` lines
112-226): the dispatcher cursor starts at 0 on every call, the loop runs
for `len(account_ids)` iterations; only the manager's `mgrIdx` is carried
over from previous calls. -/
def chat_completions_multi (cfg : LoopCfg) (mgrIdx : Nat)
    (oracle : Nat → Outcome) : List Ev × DispatchResult × LoopSt :=
  dispatchLoop cfg oracle cfg.ids.length
    { idx := 0, mgrIdx := mgrIdx, k := 0, lastErr := none }

/-- Accounts that upstream POSTs (initial or retry) were issued for, in
order. -/
def attemptedAccounts (tr : List Ev) : List String :=
  tr.filterMap fun e =>
    match e with
    | Ev.attempt a => some a
    | Ev.retryAttempt a => some a
    | Ev.refresh _ => none

/-- Accounts that forced token refreshes targeted, in order. -/
def refreshTargets (tr : List Ev) : List String :=
  tr.filterMap fun e =>
    match e with
    | Ev.refresh a => some a
    | _ => none

/-- Canonical quota-exceeded failure (HTTP 429). -/
def quotaErr : UpErr := { status := some 429, text := "quota exceeded" }

/-- Canonical auth failure (HTTP 401). -/
def authErr : UpErr := { status := some 401, text := "unauthorized" }

example : is_quota_exceeded_error quotaErr = true := by decide
example : is_auth_error authErr = true := by decide
example : is_quota_exceeded_error authErr = false := by decide

/-! ## Streamed dispatch (`QwenAPI.stream_chat_completions`, `api.py`
lines 464-639)

An upstream streamed attempt either serves all its chunks, or serves a
(possibly empty) prefix of chunks and then raises: `raise_for_status`
failures are the `chunks = []` case, connection failures during
`aiter_text` the non-empty case.  The generator forwards each chunk as it
arrives; the model collects everything it yielded over the whole call. -/

/-- Outcome of one upstream streamed POST. -/
inductive StreamOutcome where
  /-- The response streamed to completion, yielding `chunks`. -/
  | ok (chunks : List String)
  /-- The attempt yielded `chunks` and then raised `e` (before any chunk
  when `chunks = []`). -/
  | failDuring (chunks : List String) (e : UpErr)
deriving Repr, DecidableEq

/-- Final result of a streamed dispatch (what the generator does after
its last yield). -/
inductive StreamResult where
  /-- The generator completed normally. -/
  | done
  /-- An HTTPException built from upstream error `e` was raised. -/
  | httpError (e : UpErr)
  /-- The single-account refresh-retry failed and an
  HTTPException(500) was raised (`api.py` lines 537-540). -/
  | refreshRetryFailed (orig : UpErr)
  /-- The multi-account `for` loop ran out of accounts (`api.py`
  line 639). -/
  | exhausted (last : Option UpErr)
deriving Repr, DecidableEq

/-- Loop state of the multi-account streaming `for` loop (`api.py`
lines 555-636); it has no auth-retry branch, so no manager index is
touched. -/
structure StreamSt where
  idx : Nat
  k : Nat
  lastErr : Option UpErr
deriving Repr, DecidableEq

/-- One iteration of the multi-account streaming loop (`api.py` lines
559-636): yields the chunks the attempt produced, then on a
quota-classified failure rotates and continues — whether or not chunks
were already yielded — and on any other failure raises. -/
def streamStep (cfg : LoopCfg) (oracle : Nat → StreamOutcome) (s : StreamSt) :
    List String × List Ev × (StreamSt ⊕ StreamResult) :=
  let n := cfg.ids.length
  let acct := cfg.ids.getD s.idx ""
  if cfg.hasCreds acct = false then
    ([], [], Sum.inl { s with idx := (s.idx + 1) % n })
  else
    match oracle s.k with
    | StreamOutcome.ok cs => (cs, [Ev.attempt acct], Sum.inr StreamResult.done)
    | StreamOutcome.failDuring cs e =>
      if is_quota_exceeded_error e then
        (cs, [Ev.attempt acct],
         Sum.inl { idx := (s.idx + 1) % n, k := s.k + 1, lastErr := some e })
      else
        (cs, [Ev.attempt acct], Sum.inr (StreamResult.httpError e))

/-- The streaming `for i in range(max_retries)` loop. -/
def streamLoop (cfg : LoopCfg) (oracle : Nat → StreamOutcome) :
    Nat → StreamSt → List String × List Ev × StreamResult
  | 0, s => ([], [], StreamResult.exhausted s.lastErr)
  | Nat.succ fuel, s =>
    match streamStep cfg oracle s with
    | (out, evs, Sum.inr r) => (out, evs, r)
    | (out, evs, Sum.inl s2) =>
      let rest := streamLoop cfg oracle fuel s2
      (out ++ rest.1, evs ++ rest.2.1, rest.2.2)

/-- The multi-account path of `stream_chat_completions` (`api.py` lines
552-639): cursor starts at 0, `len(account_ids)` iterations. -/
def stream_chat_completions_multi (cfg : LoopCfg)
    (oracle : Nat → StreamOutcome) : List String × List Ev × StreamResult :=
  streamLoop cfg oracle cfg.ids.length { idx := 0, k := 0, lastErr := none }

/-- The single-account path of `stream_chat_completions` (`api.py` lines
471-551).  On a failure classified as an auth error it refreshes and
retries the whole stream once; note that after a *successful* retry the
code falls through to the `raise` at lines 542-551 (there is no `return`
after the retry loop), so the original error is still raised after all
retry chunks have been yielded. -/
def stream_chat_completions_single (oracle : Nat → StreamOutcome) :
    List String × List Ev × StreamResult :=
  match oracle 0 with
  | StreamOutcome.ok cs => (cs, [Ev.attempt "default"], StreamResult.done)
  | StreamOutcome.failDuring cs e =>
    if is_auth_error e then
      match oracle 1 with
      | StreamOutcome.ok cs2 =>
        (cs ++ cs2,
         [Ev.attempt "default", Ev.refresh "default", Ev.retryAttempt "default"],
         StreamResult.httpError e)
      | StreamOutcome.failDuring cs2 _ =>
        (cs ++ cs2,
         [Ev.attempt "default", Ev.refresh "default", Ev.retryAttempt "default"],
         StreamResult.refreshRetryFailed e)
    else
      (cs, [Ev.attempt "default"], StreamResult.httpError e)

/-! ## Device-flow polling (`QwenAuthManager.poll_for_token`, `auth.py`
lines 393-492)

Each loop iteration issues one HTTP POST to the token endpoint; the
response script maps the attempt number to either a parsed response or a
transport-level exception.  A non-200 response is turned into a raised
`Exception` whose *message text* is one of the literal strings below;
the outer `except` then decides between terminal re-raise and
sleep-and-continue by substring tests on that message text
(`auth.py` lines 478-490). -/

/-- A token-endpoint response as seen by `poll_for_token`. -/
structure PollResp where
  /-- HTTP status code. -/
  status : Nat
  /-- Whether `response.json()` parses (`auth.py` line 458 catches the
  decode failure). -/
  jsonOk : Bool
  /-- The `error` field, `'unknown_error'` when missing. -/
  error : String
  /-- The `error_description` field, `'无详细信息'` when missing. -/
  errorDesc : String
deriving Repr, DecidableEq

/-- One polling attempt's input: a parsed response or a transport-level
exception with message `msg`. -/
inductive PollEvent where
  | resp (r : PollResp)
  | transportErr (msg : String)
deriving Repr, DecidableEq

/-- Message raised for HTTP 400 `expired_token` (`auth.py` line 445). -/
def msgExpired : String := "❌ 设备代码已过期。请重新启动认证过程。"

/-- Message raised for HTTP 400 `access_denied` (`auth.py` line 448). -/
def msgDenied : String := "❌ 用户拒绝授权。请重新启动认证过程。"

/-- Message raised on attempt-budget exhaustion (`auth.py` line 492). -/
def msgTimeout : String := "认证超时。请重新启动认证过程。"

/-- The message of the `Exception` raised for a non-200 response
(`auth.py` lines 431-461), following the source's branch order; the
`authorization_pending` and `slow_down` branches never raise and are
handled in `pollGo` directly. -/
def pollErrMsg (r : PollResp) : String :=
  if r.jsonOk = false then
    "设备token轮询失败: " ++ toString r.status ++ ". 响应: ..."
  else if r.status == 400 && r.error == "expired_token" then msgExpired
  else if r.status == 400 && r.error == "access_denied" then msgDenied
  else if r.status == 400
      && (containsSub (strToLower r.error) "invalid"
          || containsSub (strToLower r.errorDesc) "invalid")
      && (containsSub (strToLower r.errorDesc) "user_code"
          || containsSub (strToLower r.errorDesc) "code") then
    "❌ 用户代码无效或已失效: " ++ r.errorDesc ++ "\n请重新启动认证过程获取新的代码。"
  else
    "设备token轮询失败: " ++ r.error ++ " - " ++ r.errorDesc

/-- The outer `except` handler's terminality test (`auth.py` lines
483-485): re-raise only when the exception *message* contains one of
these substrings. -/
def isTerminalMsg (m : String) : Bool :=
  containsSub m "expired_token" || containsSub m "access_denied"
    || containsSub m "设备授权失败"

/-- Result of a polling run. -/
inductive PollResult where
  /-- HTTP 200: credentials parsed, saved and returned. -/
  | success
  /-- An exception with message `msg` propagated out of the loop. -/
  | raised (msg : String)
deriving Repr, DecidableEq

/-- Observables of a polling run: its result, the number of HTTP POSTs
issued to the token endpoint, and the number of sleeps performed. -/
structure PollRun where
  result : PollResult
  attempts : Nat
  sleeps : Nat
deriving Repr, DecidableEq

/-- The body of `for attempt in range(max_attempts)` (`auth.py` lines
403-490).  `fuel` is the remaining attempt budget, `i` the next script
index, `iv` the current poll interval in seconds (only its slow-down
arithmetic is tracked; sleeping itself is counted, not timed). -/
def pollGo (script : Nat → PollEvent) :
    Nat → Nat → Rat → Nat → Nat → PollRun
  | 0, _, _, a, sl => { result := PollResult.raised msgTimeout, attempts := a, sleeps := sl }
  | Nat.succ fuel, i, iv, a, sl =>
    match script i with
    | PollEvent.transportErr m =>
      if isTerminalMsg m then
        { result := PollResult.raised m, attempts := a + 1, sleeps := sl }
      else
        pollGo script fuel (i + 1) iv (a + 1) (sl + 1)
    | PollEvent.resp r =>
      if r.status == 200 then
        { result := PollResult.success, attempts := a + 1, sleeps := sl }
      else if r.jsonOk && r.status == 400 && r.error == "authorization_pending" then
        pollGo script fuel (i + 1) iv (a + 1) (sl + 1)
      else if r.jsonOk && r.status == 400 && r.error == "slow_down" then
        pollGo script fuel (i + 1) (min (iv * (3 / 2)) 10) (a + 1) (sl + 1)
      else
        let m := pollErrMsg r
        if isTerminalMsg m then
          { result := PollResult.raised m, attempts := a + 1, sleeps := sl }
        else
          pollGo script fuel (i + 1) iv (a + 1) (sl + 1)

/-- `poll_for_token`: 60 attempts maximum, 5-second initial interval. -/
def poll_for_token (script : Nat → PollEvent) : PollRun :=
  pollGo script 60 0 5 0 0

/-! ## Request-count tracking (`auth.py` lines 164-214)

The counter state is the in-memory `request_counts` dict (an association
list), `last_reset_date`, and the contents of `request_counts.json` on
disk.  The wall-clock date is a parameter `today`; `save_request_counts`
writes the in-memory state to disk (the save scheduled with
`asyncio.create_task` in the reset path is modelled as performed). -/

/-- Python dict assignment `d[a] = v` on an association list. -/
def setCount : List (String × Nat) → String → Nat → List (String × Nat)
  | [], a, v => [(a, v)]
  | (b, w) :: t, a, v =>
    if b = a then (a, v) :: t else (b, w) :: setCount t a v

/-- State of the request-count tracker. -/
structure Counter where
  requestCounts : List (String × Nat)
  lastResetDate : String
  /-- Contents of `request_counts.json`: the persisted counts and date. -/
  disk : List (String × Nat) × String
deriving Repr, DecidableEq

/-- `save_request_counts` (`auth.py` lines 184-193). -/
def save_request_counts (c : Counter) : Counter :=
  { c with disk := (c.requestCounts, c.lastResetDate) }

/-- `reset_request_counts_if_needed` (`auth.py` lines 195-202): when
`today` differs from `last_reset_date`, clear all counts, advance the
date, and schedule a save. -/
def reset_request_counts_if_needed (today : String) (c : Counter) : Counter :=
  if today ≠ c.lastResetDate then
    save_request_counts { c with requestCounts := [], lastResetDate := today }
  else c

/-- `increment_request_count` (`auth.py` lines 204-209): rollover first,
then increment, then persist. -/
def increment_request_count (today : String) (acct : String) (c : Counter) :
    Counter :=
  let c1 := reset_request_counts_if_needed today c
  let cur := (c1.requestCounts.lookup acct).getD 0
  save_request_counts
    { c1 with requestCounts := setCount c1.requestCounts acct (cur + 1) }

/-- `get_request_count` (`auth.py` lines 211-214): rollover first, then
read; returns the count and the (possibly reset) state. -/
def get_request_count (today : String) (acct : String) (c : Counter) :
    Nat × Counter :=
  let c1 := reset_request_counts_if_needed today c
  ((c1.requestCounts.lookup acct).getD 0, c1)

/-- Wall-clock calendars of the host at one instant: the UTC calendar
date and the host's local calendar date, which differ whenever the
host's UTC offset has carried the local clock across midnight relative
to UTC. -/
structure Clock where
  utcDate : String
  localDate : String
deriving Repr, DecidableEq

/-- The date string the counter code actually computes:
`datetime.now().strftime('%Y-%m-%d')` (`auth.py` line 197) uses the
naive *local* clock, so it yields the host's local calendar date — not
the UTC date its surrounding comments and log message (`auth.py` lines
178, 196, 201) speak of. -/
def codeToday (clk : Clock) : String := clk.localDate

/-! ## Token validity (`QwenAuthManager.is_token_valid`, `auth.py` lines
125-131) -/

/-- The 30-second refresh buffer (`auth.py` line 26). -/
def TOKEN_REFRESH_BUFFER_MS : Int := 30 * 1000

/-- `is_token_valid`: false when `expiry_date` is missing (or `0`, which
is falsy in Python), else `current_time < expiry_date - buffer`.
`now` is `int(datetime.now().timestamp() * 1000)`. -/
def is_token_valid (expiry_date : Option Int) (now : Int) : Bool :=
  match expiry_date with
  | none => false
  | some d => if d = 0 then false else decide (now < d - TOKEN_REFRESH_BUFFER_MS)

/-! ## Account removal (`QwenAuthManager.remove_account`, `auth.py`
lines 145-162)

The store state is the set of account ids with an on-disk credential
file and the in-memory `accounts` map's key set.  `remove_account`
unlinks the file if it exists, deletes the map entry if present, and
prints a success message; it raises only when a filesystem operation
itself fails (outside this model), never for an unknown id. -/

/-- Credential-store state: ids with an on-disk record, and ids in the
in-memory `accounts` map. -/
structure Store where
  disk : List String
  mem : List String
deriving Repr, DecidableEq

/-- `remove_account`: always succeeds in the absence of filesystem
errors; unknown ids are a silent no-op. -/
def remove_account (acctId : String) (st : Store) : Except String Store :=
  Except.ok
    { disk := st.disk.filter (fun a => a ≠ acctId),
      mem := st.mem.filter (fun a => a ≠ acctId) }

/-! ## Helper lemmas about the unary dispatch loop -/

/-- Shape of a loop iteration whose POST fails with a quota-classified
error: one attempt event, cursor advanced mod the account count, manager
index untouched, error stored. -/
lemma dispatchStep_quota (cfg : LoopCfg) (oracle : Nat → Outcome)
    (s : LoopSt) (e : UpErr)
    (hc : cfg.hasCreds (cfg.ids.getD s.idx "") = true)
    (hf : oracle s.k = Outcome.fail e)
    (hq : is_quota_exceeded_error e = true) :
    dispatchStep cfg oracle s =
      ([Ev.attempt (cfg.ids.getD s.idx "")],
       Sum.inl { idx := (s.idx + 1) % cfg.ids.length, mgrIdx := s.mgrIdx,
                 k := s.k + 1, lastErr := some e }) := by
  rw [List.getD_eq_getElem?_getD] at hc
  simp [dispatchStep, hc, hf, hq]

/-- Shape of a loop iteration whose POST fails with an auth-classified
(non-quota) error and whose retry POST also fails: one refresh and one
retry, both for the manager's round-robin account, cursor unchanged,
manager index advanced, original error stored. -/
lemma dispatchStep_auth_retry_fails (cfg : LoopCfg) (oracle : Nat → Outcome)
    (s : LoopSt) (e e2 : UpErr)
    (hc : cfg.hasCreds (cfg.ids.getD s.idx "") = true)
    (hf : oracle s.k = Outcome.fail e)
    (hq : is_quota_exceeded_error e = false)
    (ha : is_auth_error e = true)
    (hr : oracle (s.k + 1) = Outcome.fail e2) :
    dispatchStep cfg oracle s =
      ([Ev.attempt (cfg.ids.getD s.idx ""),
        Ev.refresh (cfg.ids.getD s.mgrIdx ""),
        Ev.retryAttempt (cfg.ids.getD s.mgrIdx "")],
       Sum.inl { idx := s.idx, mgrIdx := (s.mgrIdx + 1) % cfg.ids.length,
                 k := s.k + 2, lastErr := some e }) := by
  rw [List.getD_eq_getElem?_getD] at hc
  simp [dispatchStep, hc, hf, hq, ha, hr]

/-- Shape of a loop iteration whose POST fails with an auth-classified
(non-quota) error and whose retry POST succeeds. -/
lemma dispatchStep_auth_retry_ok (cfg : LoopCfg) (oracle : Nat → Outcome)
    (s : LoopSt) (e : UpErr)
    (hc : cfg.hasCreds (cfg.ids.getD s.idx "") = true)
    (hf : oracle s.k = Outcome.fail e)
    (hq : is_quota_exceeded_error e = false)
    (ha : is_auth_error e = true)
    (hr : oracle (s.k + 1) = Outcome.ok) :
    dispatchStep cfg oracle s =
      ([Ev.attempt (cfg.ids.getD s.idx ""),
        Ev.refresh (cfg.ids.getD s.mgrIdx ""),
        Ev.retryAttempt (cfg.ids.getD s.mgrIdx "")],
       Sum.inr DispatchResult.success) := by
  rw [List.getD_eq_getElem?_getD] at hc
  simp [dispatchStep, hc, hf, hq, ha, hr]

/-- `attemptedAccounts` of a pure attempt trace. -/
lemma attemptedAccounts_map_attempt (l : List String) :
    attemptedAccounts (l.map Ev.attempt) = l := by
  induction l with
  | nil => rfl
  | cons a t ih => simp [attemptedAccounts, List.filterMap] at ih ⊢; exact ih

/-- When every POST outcome is a quota-classified failure, the loop
visits the remaining accounts one per iteration and exhausts its fuel,
storing the error of the last POST. -/
lemma dispatchLoop_allQuota (cfg : LoopCfg) (oracle : Nat → Outcome)
    (errs : Nat → UpErr) (m : Nat)
    (hall : ∀ a ∈ cfg.ids, cfg.hasCreds a = true)
    (ho : ∀ k, oracle k = Outcome.fail (errs k))
    (hq : ∀ k, is_quota_exceeded_error (errs k) = true) :
    ∀ (f i k : Nat) (le : Option UpErr),
      i + f = cfg.ids.length → i < cfg.ids.length →
      dispatchLoop cfg oracle f { idx := i, mgrIdx := m, k := k, lastErr := le } =
        ((cfg.ids.drop i).map Ev.attempt,
         DispatchResult.exhausted (some (errs (k + f - 1))),
         { idx := 0, mgrIdx := m, k := k + f, lastErr := some (errs (k + f - 1)) }) := by
  intro f
  induction f with
  | zero => intro i k le h1 h2; omega
  | succ f ih =>
    intro i k le h1 h2
    have hget : cfg.ids.getD i "" = cfg.ids[i] := List.getD_eq_getElem cfg.ids "" h2
    have hstep := dispatchStep_quota cfg oracle
      { idx := i, mgrIdx := m, k := k, lastErr := le } (errs k)
      (by rw [hget]; exact hall _ (List.getElem_mem h2)) (ho k) (hq k)
    have hdrop : cfg.ids.drop i = cfg.ids[i] :: cfg.ids.drop (i + 1) :=
      List.drop_eq_getElem_cons h2
    rcases Nat.eq_or_lt_of_le (Nat.succ_le_of_lt h2) with hlast | hmid
    · -- last iteration: i + 1 = length, the advanced cursor wraps to 0
      have hlen : i + 1 = cfg.ids.length := by omega
      have hz : (i + 1) % cfg.ids.length = 0 := by
        rw [hlen]; exact Nat.mod_self _
      have hdropnil : cfg.ids.drop (i + 1) = [] :=
        List.drop_eq_nil_of_le (by omega)
      have hf0 : f = 0 := by omega
      subst hf0
      simp only [dispatchLoop, hstep, hz, hdrop, hdropnil, List.map_cons,
        List.map_nil, List.append_nil, hget]
      simp
    · -- middle iteration: recurse at cursor i + 1
      have hlt : i + 1 < cfg.ids.length := hmid
      have hmod : (i + 1) % cfg.ids.length = i + 1 := Nat.mod_eq_of_lt hlt
      have hrec := ih (i + 1) (k + 1) (some (errs k)) (by omega) hlt
      have e1 : k + 1 + f - 1 = k + (f + 1) - 1 := by omega
      have e2 : k + 1 + f = k + (f + 1) := by omega
      rw [e1, e2] at hrec
      simp only [dispatchLoop, hstep, hmod, hrec, hdrop, List.map_cons, hget,
        List.singleton_append]

/-! ## Claims about the unary multi-account dispatcher -/

/-- C1 (counterexample): the claim asserts that the cursor position
reached after a quota-exceeded failure "is used ... for all subsequent
dispatcher calls".  In the code `current_account_index` is a local
variable initialised to 0 on every call (`api.py` line 113).  Concretely:
a call over accounts A, B, C in which A fails with a quota error rotates
to B and succeeds there (final cursor 1), yet the next dispatcher call
attempts A first, not B. -/
theorem C1_counterexample :
    (chat_completions_multi { ids := ["A", "B", "C"], hasCreds := fun _ => true } 0
        (fun k => if k = 0 then Outcome.fail quotaErr else Outcome.ok)).1
      = [Ev.attempt "A", Ev.attempt "B"]
    ∧ (chat_completions_multi { ids := ["A", "B", "C"], hasCreds := fun _ => true } 0
        (fun k => if k = 0 then Outcome.fail quotaErr else Outcome.ok)).2.2.idx = 1
    ∧ (chat_completions_multi { ids := ["A", "B", "C"], hasCreds := fun _ => true }
        ((chat_completions_multi { ids := ["A", "B", "C"], hasCreds := fun _ => true } 0
            (fun k => if k = 0 then Outcome.fail quotaErr else Outcome.ok)).2.2.mgrIdx)
        (fun _ => Outcome.ok)).1
      = [Ev.attempt "A"] := by
  refine ⟨rfl, rfl, rfl⟩

/-- C1 (amended): the dispatcher cursor is local to each call.  Within a
call, a quota-exceeded failure on the current account advances the cursor
by one (mod account count) and the advanced position is used for the
remainder of that call, while an auth-classified (non-quota) failure
leaves the cursor unchanged; but every dispatcher call starts again at
cursor 0, so the advanced position is not carried to subsequent calls. -/
theorem C1_sticky_cursor_per_call (cfg : LoopCfg) (oracle : Nat → Outcome)
    (s : LoopSt) (e : UpErr)
    (hc : cfg.hasCreds (cfg.ids.getD s.idx "") = true)
    (hf : oracle s.k = Outcome.fail e) :
    (is_quota_exceeded_error e = true →
      dispatchStep cfg oracle s =
        ([Ev.attempt (cfg.ids.getD s.idx "")],
         Sum.inl { idx := (s.idx + 1) % cfg.ids.length, mgrIdx := s.mgrIdx,
                   k := s.k + 1, lastErr := some e }))
    ∧ (is_quota_exceeded_error e = false → is_auth_error e = true →
        ∀ e2, oracle (s.k + 1) = Outcome.fail e2 →
          dispatchStep cfg oracle s =
            ([Ev.attempt (cfg.ids.getD s.idx ""),
              Ev.refresh (cfg.ids.getD s.mgrIdx ""),
              Ev.retryAttempt (cfg.ids.getD s.mgrIdx "")],
             Sum.inl { idx := s.idx, mgrIdx := (s.mgrIdx + 1) % cfg.ids.length,
                       k := s.k + 2, lastErr := some e }))
    ∧ (∀ (m : Nat) (o : Nat → Outcome),
        chat_completions_multi cfg m o =
          dispatchLoop cfg o cfg.ids.length
            { idx := 0, mgrIdx := m, k := 0, lastErr := none }) := by
  refine ⟨fun hq => dispatchStep_quota cfg oracle s e hc hf hq,
    fun hq ha e2 hr => dispatchStep_auth_retry_fails cfg oracle s e e2 hc hf hq ha hr,
    fun m o => rfl⟩

/-- C1 (witness): the amended theorem applied to a concrete
quota-failing step over two accounts. -/
theorem C1_sticky_cursor_per_call_witness :
    dispatchStep { ids := ["A", "B"], hasCreds := fun _ => true }
        (fun _ => Outcome.fail quotaErr)
        { idx := 0, mgrIdx := 0, k := 0, lastErr := none } =
      ([Ev.attempt "A"],
       Sum.inl { idx := 1, mgrIdx := 0, k := 1, lastErr := some quotaErr }) := by
  have h := (C1_sticky_cursor_per_call
      { ids := ["A", "B"], hasCreds := fun _ => true }
      (fun _ => Outcome.fail quotaErr)
      { idx := 0, mgrIdx := 0, k := 0, lastErr := none }
      quotaErr rfl rfl).1 (by decide)
  exact h

/-- C2 (counterexample): with two accounts that keep failing with HTTP
401, a single `chat_completions` call performs two forced refreshes (the
claim allows at most one), and its second refresh targets account "b"
while the failing attempt used account "a" — `get_next_account`'s
round-robin index, not the failing account, picks the refresh target. -/
theorem C2_counterexample :
    (chat_completions_multi { ids := ["a", "b"], hasCreds := fun _ => true } 0
        (fun _ => Outcome.fail authErr)).1
      = [Ev.attempt "a", Ev.refresh "a", Ev.retryAttempt "a",
         Ev.attempt "a", Ev.refresh "b", Ev.retryAttempt "b"]
    ∧ refreshTargets
        (chat_completions_multi { ids := ["a", "b"], hasCreds := fun _ => true } 0
          (fun _ => Outcome.fail authErr)).1 = ["a", "b"]
    ∧ (refreshTargets
        (chat_completions_multi { ids := ["a", "b"], hasCreds := fun _ => true } 0
          (fun _ => Outcome.fail authErr)).1).length = 2 := by
  refine ⟨rfl, rfl, rfl⟩

/-- C2 (amended): for every multi-account unary attempt that fails with
an auth-classified (non-quota) error, the dispatcher performs exactly one
forced refresh for that attempt and retries the call once — but the
refresh targets the account selected by the auth manager's round-robin
`get_next_account` (whose own index then advances), which need not be the
account the failing call used; a failed retry continues the loop with the
cursor unchanged, so a later attempt of the same logical call can refresh
again. -/
theorem C2_auth_refresh_round_robin (cfg : LoopCfg) (oracle : Nat → Outcome)
    (s : LoopSt) (e : UpErr)
    (hc : cfg.hasCreds (cfg.ids.getD s.idx "") = true)
    (hf : oracle s.k = Outcome.fail e)
    (hq : is_quota_exceeded_error e = false)
    (ha : is_auth_error e = true) :
    (oracle (s.k + 1) = Outcome.ok →
      dispatchStep cfg oracle s =
        ([Ev.attempt (cfg.ids.getD s.idx ""),
          Ev.refresh (cfg.ids.getD s.mgrIdx ""),
          Ev.retryAttempt (cfg.ids.getD s.mgrIdx "")],
         Sum.inr DispatchResult.success))
    ∧ (∀ e2, oracle (s.k + 1) = Outcome.fail e2 →
        dispatchStep cfg oracle s =
          ([Ev.attempt (cfg.ids.getD s.idx ""),
            Ev.refresh (cfg.ids.getD s.mgrIdx ""),
            Ev.retryAttempt (cfg.ids.getD s.mgrIdx "")],
           Sum.inl { idx := s.idx, mgrIdx := (s.mgrIdx + 1) % cfg.ids.length,
                     k := s.k + 2, lastErr := some e }))
    ∧ refreshTargets
        [Ev.attempt (cfg.ids.getD s.idx ""),
         Ev.refresh (cfg.ids.getD s.mgrIdx ""),
         Ev.retryAttempt (cfg.ids.getD s.mgrIdx "")]
      = [cfg.ids.getD s.mgrIdx ""] := by
  refine ⟨fun hr => dispatchStep_auth_retry_ok cfg oracle s e hc hf hq ha hr,
    fun e2 hr => dispatchStep_auth_retry_fails cfg oracle s e e2 hc hf hq ha hr,
    ?_⟩
  simp [refreshTargets]

/-- C2 (witness): the amended theorem at a concrete state whose cursor
sits on account "b" while the manager's round-robin index selects "a":
the refresh targets "a", not the failing account "b". -/
theorem C2_auth_refresh_round_robin_witness :
    dispatchStep { ids := ["a", "b"], hasCreds := fun _ => true }
        (fun _ => Outcome.fail authErr)
        { idx := 1, mgrIdx := 0, k := 0, lastErr := none } =
      ([Ev.attempt "b", Ev.refresh "a", Ev.retryAttempt "a"],
       Sum.inl { idx := 1, mgrIdx := 1, k := 2, lastErr := some authErr }) := by
  have h := (C2_auth_refresh_round_robin
      { ids := ["a", "b"], hasCreds := fun _ => true }
      (fun _ => Outcome.fail authErr)
      { idx := 1, mgrIdx := 0, k := 0, lastErr := none }
      authErr rfl rfl (by decide) (by decide)).2.1 authErr rfl
  exact h

/-- C5: with N configured accounts all of whose POSTs fail with
quota-classified errors, the dispatcher issues exactly one upstream
attempt per account, visiting each configured account exactly once, and
then fails with the all-accounts-exhausted error wrapping the error of
the last attempt. -/
theorem C5_bounded_failover (cfg : LoopCfg) (m : Nat) (oracle : Nat → Outcome)
    (errs : Nat → UpErr)
    (hne : cfg.ids ≠ [])
    (hnd : cfg.ids.Nodup)
    (hall : ∀ a ∈ cfg.ids, cfg.hasCreds a = true)
    (ho : ∀ k, oracle k = Outcome.fail (errs k))
    (hq : ∀ k, is_quota_exceeded_error (errs k) = true) :
    (chat_completions_multi cfg m oracle).2.1
        = DispatchResult.exhausted (some (errs (cfg.ids.length - 1)))
    ∧ attemptedAccounts (chat_completions_multi cfg m oracle).1 = cfg.ids
    ∧ (attemptedAccounts (chat_completions_multi cfg m oracle).1).length
        = cfg.ids.length
    ∧ (attemptedAccounts (chat_completions_multi cfg m oracle).1).Nodup := by
  have hpos : 0 < cfg.ids.length := List.length_pos.mpr hne
  have h := dispatchLoop_allQuota cfg oracle errs m hall ho hq
    cfg.ids.length 0 0 none (by omega) hpos
  unfold chat_completions_multi
  rw [h]
  simp [attemptedAccounts_map_attempt, hnd]

/-- C5 (witness): three accounts, every POST failing HTTP 429. -/
theorem C5_bounded_failover_witness :
    (chat_completions_multi { ids := ["A", "B", "C"], hasCreds := fun _ => true } 0
        (fun _ => Outcome.fail quotaErr)).2.1
      = DispatchResult.exhausted (some quotaErr)
    ∧ attemptedAccounts
        (chat_completions_multi { ids := ["A", "B", "C"], hasCreds := fun _ => true } 0
          (fun _ => Outcome.fail quotaErr)).1 = ["A", "B", "C"] := by
  have hq0 : is_quota_exceeded_error quotaErr = true := by decide
  have h := C5_bounded_failover { ids := ["A", "B", "C"], hasCreds := fun _ => true }
    0 (fun _ => Outcome.fail quotaErr) (fun _ => quotaErr)
    (by decide) (by decide) (by decide) (fun k => rfl) (fun k => hq0)
  exact ⟨h.1, h.2.1⟩

/-- C10: in the dispatch loop's exception handler the quota test runs
before the auth test, so a quota-classified failure always takes the
rotation path (one attempt event, no refresh) even when it is *also*
auth-classified; an HTTP 429 status is always quota-classified; and an
HTTP 400 failure with no quota keyword in its message is classified as an
auth error (400 is in the auth status set) and not as quota. -/
theorem C10_classification_precedence :
    (∀ (cfg : LoopCfg) (oracle : Nat → Outcome) (s : LoopSt) (e : UpErr),
        cfg.hasCreds (cfg.ids.getD s.idx "") = true →
        oracle s.k = Outcome.fail e →
        is_quota_exceeded_error e = true →
        dispatchStep cfg oracle s =
          ([Ev.attempt (cfg.ids.getD s.idx "")],
           Sum.inl { idx := (s.idx + 1) % cfg.ids.length, mgrIdx := s.mgrIdx,
                     k := s.k + 1, lastErr := some e }))
    ∧ (∀ e : UpErr, e.status = some 429 → is_quota_exceeded_error e = true)
    ∧ (∀ e : UpErr, e.status = some 400 →
        (∀ kw ∈ quotaKeywords, containsSub (strToLower e.text) kw = false) →
        is_quota_exceeded_error e = false ∧ is_auth_error e = true) := by
  refine ⟨fun cfg oracle s e hc hf hq => dispatchStep_quota cfg oracle s e hc hf hq,
    ?_, ?_⟩
  · rintro ⟨st, txt⟩ h
    simp only at h
    subst h
    simp [is_quota_exceeded_error]
  · rintro ⟨st, txt⟩ h hkw
    simp only at h
    subst h
    have h1 := hkw "insufficient_quota" (by decide)
    have h2 := hkw "free allocated quota exceeded" (by decide)
    have h3 := hkw "quota exceeded" (by decide)
    constructor
    · simp [is_quota_exceeded_error, quotaKeywords, h1, h2, h3]
    · simp [is_auth_error, authStatusCodes]

/-- C10 (witness): a failure carrying status 429 *and* an auth keyword in
its message rotates without refreshing; a status-400 failure with no
quota keyword is auth-classified only. -/
theorem C10_classification_precedence_witness :
    dispatchStep { ids := ["A", "B"], hasCreds := fun _ => true }
        (fun _ => Outcome.fail { status := some 429, text := "unauthorized" })
        { idx := 0, mgrIdx := 0, k := 0, lastErr := none } =
      ([Ev.attempt "A"],
       Sum.inl { idx := 1, mgrIdx := 0, k := 1,
                 lastErr := some { status := some 429, text := "unauthorized" } })
    ∧ is_auth_error { status := some 429, text := "unauthorized" } = true
    ∧ is_quota_exceeded_error { status := some 400, text := "bad request" } = false
    ∧ is_auth_error { status := some 400, text := "bad request" } = true := by
  have hmain := C10_classification_precedence
  refine ⟨hmain.1 { ids := ["A", "B"], hasCreds := fun _ => true }
      (fun _ => Outcome.fail { status := some 429, text := "unauthorized" })
      { idx := 0, mgrIdx := 0, k := 0, lastErr := none }
      { status := some 429, text := "unauthorized" } rfl rfl (by decide),
    by decide, ?_, ?_⟩
  · exact (hmain.2.2 { status := some 400, text := "bad request" } rfl (by decide)).1
  · exact (hmain.2.2 { status := some 400, text := "bad request" } rfl (by decide)).2

/-! ## Claims about the streamed dispatcher -/

/-- Shape of a streaming loop iteration whose attempt yields `cs` and
then fails with a quota-classified error: the partial chunks are
forwarded and the loop rotates and continues, whether or not `cs` is
empty. -/
lemma streamStep_quota (cfg : LoopCfg) (oracle : Nat → StreamOutcome)
    (s : StreamSt) (cs : List String) (e : UpErr)
    (hc : cfg.hasCreds (cfg.ids.getD s.idx "") = true)
    (hf : oracle s.k = StreamOutcome.failDuring cs e)
    (hq : is_quota_exceeded_error e = true) :
    streamStep cfg oracle s =
      (cs, [Ev.attempt (cfg.ids.getD s.idx "")],
       Sum.inl { idx := (s.idx + 1) % cfg.ids.length, k := s.k + 1,
                 lastErr := some e }) := by
  rw [List.getD_eq_getElem?_getD] at hc
  simp [streamStep, hc, hf, hq]

/-- C4 (counterexample): with two accounts, the first streamed attempt
yields the chunk "hello" and then fails with HTTP 429; the dispatcher
nevertheless rotates and issues a second upstream request, whose chunk
"world" is appended after the partial output, and the sequence ends
normally rather than with a terminal error — contradicting the claim
that no second upstream request is issued once a chunk has been
yielded. -/
theorem C4_counterexample :
    stream_chat_completions_multi { ids := ["A", "B"], hasCreds := fun _ => true }
        (fun k => if k = 0 then StreamOutcome.failDuring ["hello"] quotaErr
                  else StreamOutcome.ok ["world"])
      = (["hello", "world"], [Ev.attempt "A", Ev.attempt "B"],
         StreamResult.done) := by
  rfl

/-- C4 (amended): the streaming exception handlers do not check whether
chunks have already been forwarded.  In the multi-account path a
quota-classified failure that occurs after `cs` chunks were yielded still
rotates the cursor and issues a new upstream request whose output is
appended after `cs`; in the single-account path an auth-classified
mid-stream failure still triggers a forced refresh and a full retry whose
chunks are appended after the partial output (after which the original
error is raised — the dispatcher itself never emits a terminal error
chunk; the HTTP front-end wrapper does). -/
theorem C4_stream_no_chunk_guard :
    (∀ (cfg : LoopCfg) (oracle : Nat → StreamOutcome) (s : StreamSt)
        (cs : List String) (e : UpErr) (fuel : Nat),
        cfg.hasCreds (cfg.ids.getD s.idx "") = true →
        oracle s.k = StreamOutcome.failDuring cs e →
        is_quota_exceeded_error e = true →
        streamLoop cfg oracle (Nat.succ fuel) s =
          (cs ++ (streamLoop cfg oracle fuel
              { idx := (s.idx + 1) % cfg.ids.length, k := s.k + 1,
                lastErr := some e }).1,
           Ev.attempt (cfg.ids.getD s.idx "")
             :: (streamLoop cfg oracle fuel
                  { idx := (s.idx + 1) % cfg.ids.length, k := s.k + 1,
                    lastErr := some e }).2.1,
           (streamLoop cfg oracle fuel
              { idx := (s.idx + 1) % cfg.ids.length, k := s.k + 1,
                lastErr := some e }).2.2))
    ∧ (∀ (oracle : Nat → StreamOutcome) (cs cs2 : List String) (e : UpErr),
        is_auth_error e = true →
        oracle 0 = StreamOutcome.failDuring cs e →
        oracle 1 = StreamOutcome.ok cs2 →
        stream_chat_completions_single oracle =
          (cs ++ cs2,
           [Ev.attempt "default", Ev.refresh "default",
            Ev.retryAttempt "default"],
           StreamResult.httpError e)) := by
  constructor
  · intro cfg oracle s cs e fuel hc hf hq
    have hstep := streamStep_quota cfg oracle s cs e hc hf hq
    simp only [streamLoop, hstep, List.singleton_append]
  · intro oracle cs cs2 e ha h0 h1
    simp [stream_chat_completions_single, h0, h1, ha]

/-- C4 (witness): the amended theorem's single-account conjunct at a
concrete mid-stream auth failure: the partial chunk is followed by the
full retry output. -/
theorem C4_stream_no_chunk_guard_witness :
    stream_chat_completions_single
        (fun k => if k = 0 then StreamOutcome.failDuring ["partone"] authErr
                  else StreamOutcome.ok ["resttwo"])
      = (["partone", "resttwo"],
         [Ev.attempt "default", Ev.refresh "default",
          Ev.retryAttempt "default"],
         StreamResult.httpError authErr) := by
  have h := C4_stream_no_chunk_guard.2
    (fun k => if k = 0 then StreamOutcome.failDuring ["partone"] authErr
              else StreamOutcome.ok ["resttwo"])
    ["partone"] ["resttwo"] authErr (by decide) rfl rfl
  exact h

/-! ## Claims about device-flow polling -/

/-- C3 (code bug): an HTTP 400 response with `error = expired_token`
makes `poll_for_token` raise an exception whose message is the literal
`msgExpired`; the outer handler re-raises only when the message contains
`expired_token`, `access_denied` or `设备授权失败` — none of which occurs
in `msgExpired` (or in `msgDenied`) — so the code sleeps and polls again
instead of terminating.  Concretely, a script whose first response is
400/`expired_token` and whose second is 200 yields overall success after
2 HTTP polls and 1 sleep, where the claim requires termination after the
first response with no further sleep or poll. -/
theorem C3_expired_token_not_terminal :
    pollErrMsg { status := 400, jsonOk := true, error := "expired_token",
                 errorDesc := "expired" } = msgExpired
    ∧ isTerminalMsg msgExpired = false
    ∧ isTerminalMsg msgDenied = false
    ∧ poll_for_token (fun i =>
        if i = 0 then
          PollEvent.resp { status := 400, jsonOk := true,
                           error := "expired_token", errorDesc := "expired" }
        else
          PollEvent.resp { status := 200, jsonOk := true,
                           error := "", errorDesc := "" })
      = { result := PollResult.success, attempts := 2, sleeps := 1 } := by
  refine ⟨by decide, by decide, by decide, by decide⟩

/-! ## Claims about token validity -/

/-- C6: `is_token_valid` is true iff `expiry_date` is present and the
current time is strictly below `expiry_date` minus the 30,000 ms buffer
(for any non-negative clock value); it is false when `expiry_date` is
absent, false at the exact boundary `now = expiry_date − 30000`, and
true at `now = expiry_date − 30000 − 1`. -/
theorem C6_is_token_valid_boundary :
    (∀ (e : Option Int) (now : Int), 0 ≤ now →
      (is_token_valid e now = true ↔ ∃ d, e = some d ∧ now < d - 30000))
    ∧ (∀ now : Int, is_token_valid none now = false)
    ∧ (∀ d : Int, is_token_valid (some d) (d - 30000) = false)
    ∧ (∀ d : Int, 0 ≤ d - 30001 → is_token_valid (some d) (d - 30001) = true) := by
  refine ⟨?_, fun now => rfl, ?_, ?_⟩
  · intro e now hnow
    cases e with
    | none => simp [is_token_valid]
    | some d =>
      by_cases hd : d = 0
      · subst hd
        simp [is_token_valid, TOKEN_REFRESH_BUFFER_MS]
        omega
      · simp [is_token_valid, hd, TOKEN_REFRESH_BUFFER_MS]
  · intro d
    by_cases hd : d = 0
    · subst hd; simp [is_token_valid]
    · simp [is_token_valid, hd, TOKEN_REFRESH_BUFFER_MS]
  · intro d hgt
    have hd : ¬ d = 0 := by omega
    simp [is_token_valid, hd, TOKEN_REFRESH_BUFFER_MS]

/-- C6 (witness): the boundary cases at a concrete expiry. -/
theorem C6_is_token_valid_boundary_witness :
    is_token_valid (some 100000) (100000 - 30001) = true
    ∧ is_token_valid (some 100000) (100000 - 30000) = false
    ∧ is_token_valid none 12345 = false := by
  have h := C6_is_token_valid_boundary
  exact ⟨h.2.2.2 100000 (by decide), h.2.2.1 100000, h.2.1 12345⟩

/-! ## Claims about request-count tracking -/

/-- C7 (code bug): the rollover is keyed on the *local* calendar date
(`datetime.now()`, `auth.py` line 197), while the claim — and the code's
own comments and log message (`auth.py` lines 178, 196, 201) — require
the *UTC* date.  On a host whose local clock lags UTC: the counter was
last reset on local/UTC day "2024-01-02" and holds a count of 7; the UTC
calendar has since advanced to "2024-01-03" but the local date is still
"2024-01-02".  The date the code computes equals `last_reset_date`, so a
read performs no reset and returns the previous UTC day's count 7 as
today's count, and a write increments on top of the stale counts —
contradicting the claim that counts from a previous UTC day are never
returned and are cleared before any read or write. -/
theorem C7_utc_rollover_missed :
    ({ utcDate := "2024-01-03", localDate := "2024-01-02" } : Clock).utcDate
      ≠ "2024-01-02"
    ∧ codeToday { utcDate := "2024-01-03", localDate := "2024-01-02" }
      = "2024-01-02"
    ∧ (get_request_count
        (codeToday { utcDate := "2024-01-03", localDate := "2024-01-02" })
        "acct1"
        { requestCounts := [("acct1", 7)], lastResetDate := "2024-01-02",
          disk := ([("acct1", 7)], "2024-01-02") }).1 = 7
    ∧ (get_request_count
        (codeToday { utcDate := "2024-01-03", localDate := "2024-01-02" })
        "acct1"
        { requestCounts := [("acct1", 7)], lastResetDate := "2024-01-02",
          disk := ([("acct1", 7)], "2024-01-02") }).2.requestCounts
      = [("acct1", 7)]
    ∧ (increment_request_count
        (codeToday { utcDate := "2024-01-03", localDate := "2024-01-02" })
        "acct1"
        { requestCounts := [("acct1", 7)], lastResetDate := "2024-01-02",
          disk := ([("acct1", 7)], "2024-01-02") }).requestCounts
      = [("acct1", 8)] := by
  refine ⟨by decide, rfl, rfl, rfl, rfl⟩

/-! ## Claims about account removal -/

/-- C9 (counterexample): removing an account id that has no record is a
silent success leaving the store unchanged — `remove_account` unlinks
only `if account_path.exists()` and deletes the map entry only `if
account_id in self.accounts`, and raises nothing otherwise; the claim
requires a NotFound failure. -/
theorem C9_counterexample :
    remove_account "ghost" { disk := ["a"], mem := ["a"] }
      = Except.ok { disk := ["a"], mem := ["a"] } := by
  rfl

/-- C9 (amended): `remove_account` always succeeds (absent filesystem
errors): it deletes the on-disk record and the in-memory entry when
present, leaves every other account untouched, and is a silent no-op —
not a NotFound failure — when the account has no record; the
existence check lives in the CLI front-end, not in the store. -/
theorem C9_remove_account_silent (st : Store) (a : String) :
    (∃ st2, remove_account a st = Except.ok st2
      ∧ a ∉ st2.disk ∧ a ∉ st2.mem
      ∧ (∀ b, b ≠ a →
          ((b ∈ st2.disk ↔ b ∈ st.disk) ∧ (b ∈ st2.mem ↔ b ∈ st.mem))))
    ∧ (a ∉ st.disk → a ∉ st.mem → remove_account a st = Except.ok st) := by
  constructor
  · refine ⟨_, rfl, ?_, ?_, ?_⟩
    · simp [List.mem_filter]
    · simp [List.mem_filter]
    · intro b hb
      constructor <;> simp [List.mem_filter, hb]
  · intro h1 h2
    obtain ⟨d, mm⟩ := st
    simp only [remove_account, Except.ok.injEq, Store.mk.injEq]
    constructor <;>
      (apply List.filter_eq_self.mpr; intro b hb; simp; rintro rfl)
    · exact h1 hb
    · exact h2 hb

/-- C9 (witness): the amended theorem's no-op conjunct at a concrete
store that does not contain the removed id. -/
theorem C9_remove_account_silent_witness :
    remove_account "nope" { disk := ["x"], mem := ["x"] }
      = Except.ok { disk := ["x"], mem := ["x"] } := by
  have h := (C9_remove_account_silent { disk := ["x"], mem := ["x"] } "nope").2
    (by decide) (by decide)
  exact h

end QwenProxy
